import Mathlib

/-!
# Verification of the LLM-as-a-judge comparison service

Shallow embedding of the core decision logic of the repository
`llm-as-a-judge-api`:

* `laaj/workflow/workflow.py` — `node_judge` (walkover evaluation);
* `laaj/workflow/workflow_backup.py` — `parse_judge_response`,
  `batch_judge_processing`, `main` (pre-generated comparison workflow);
* `laaj/api/routers/compare.py` — `compare_models`, `compare_models_batch`;
* `laaj/agents/llm_factory.py` — `LLMFactory.create_llm`;
* `laaj/agents/llms.py` — `_detect_provider_from_model_name`.

Python strings are modelled as Lean `String`, Python `None`/optional values
as `Option`, Python dict/str/other dynamic values as the inductive
`PyValue`.  Network calls, the LLM chain and elapsed wall-clock time are
modelled as explicit parameters (oracles) of the embedded functions.
-/

namespace Laaj

/-! ## Python string primitives -/

/-- Python `pat in s` on lists of characters: `pat` occurs as a contiguous
substring of `s`.  (`"" in s` is `True` in Python, matching the base case.) -/
def listContainsSub (pat : List Char) : List Char → Bool
  | [] => pat.isEmpty
  | c :: rest => pat.isPrefixOf (c :: rest) || listContainsSub pat rest

/-- Python `pat in s` for strings. -/
def containsSub (pat s : String) : Bool :=
  listContainsSub pat.data s.data

/-- Index of the first occurrence of `pat` in `s` (`s.find(pat)` when the
result is non-negative). -/
def listFirstPos (pat : List Char) : List Char → Option Nat
  | [] => if pat.isEmpty then some 0 else none
  | c :: rest =>
      if pat.isPrefixOf (c :: rest) then some 0
      else (listFirstPos pat rest).map (· + 1)

/-- Python `s.find(pat)`: first index of `pat` in `s`, `-1` if absent. -/
def pyFind (pat s : String) : Int :=
  match listFirstPos pat.data s.data with
  | some i => (i : Int)
  | none => -1

/-- Python slice `s[i:]` (negative `i` counts from the end). -/
def pySliceFrom (s : String) (i : Int) : String :=
  if i < 0 then ⟨s.data.drop (s.data.length - (-i).toNat)⟩
  else ⟨s.data.drop i.toNat⟩

/-- Fuel-driven scan counting non-overlapping occurrences of `pat`; with
`fuel ≥ s.length` and non-empty `pat` this is Python's `s.count(pat)`.
Structural recursion on the fuel keeps the definition kernel-reducible. -/
def listCountOccAux (pat : List Char) : Nat → List Char → Nat
  | 0, _ => 0
  | _ + 1, [] => 0
  | fuel + 1, c :: rest =>
      if pat.isPrefixOf (c :: rest) then
        1 + listCountOccAux pat fuel (rest.drop (pat.length - 1))
      else
        listCountOccAux pat fuel rest

/-- Python `s.count(pat)`: number of non-overlapping occurrences of `pat`
in `s` (`s.count("")` is `len(s) + 1`). -/
def listCountOcc (pat s : List Char) : Nat :=
  match pat with
  | [] => s.length + 1
  | _ :: _ => listCountOccAux pat s.length s

/-- Python `s.count(pat)` for strings. -/
def countOcc (pat s : String) : Nat :=
  listCountOcc pat.data s.data

/-- ASCII lower-casing of one character (the fragment of Python
`str.lower()` exercised by the parser's ASCII pattern vocabulary). -/
def pyLowerChar (c : Char) : Char :=
  if 'A' ≤ c ∧ c ≤ 'Z' then Char.ofNat (c.toNat + 32) else c

/-- Python `s.lower()` restricted to ASCII letters. -/
def pyLower (s : String) : String :=
  ⟨s.data.map pyLowerChar⟩

/-- Python whitespace characters stripped by `str.strip()`. -/
def pySpaceChar (c : Char) : Bool :=
  c = ' ' || c = '\t' || c = '\n' || c = '\x0d' || c = '\x0b' || c = '\x0c'

/-- Python `s.strip()`. -/
def pyStrip (s : String) : String :=
  ⟨((s.data.dropWhile pySpaceChar).reverse.dropWhile pySpaceChar).reverse⟩

/-- Python falsiness of `v` combined with blankness: `not v or not v.strip()`. -/
def pyBlank (s : String) : Bool :=
  pyStrip s = ""

/-- Python `s.startswith(pat)`. -/
def pyStartsWith (pat s : String) : Bool :=
  pat.data.isPrefixOf s.data

/-- Python `s[:500] + "..." if len(s) > 500 else s`
(the parser's reasoning truncation). -/
def truncate500 (s : String) : String :=
  if s.data.length > 500 then ⟨s.data.take 500⟩ ++ "..." else s

/-! ## Dynamic values handed to the judge-response parser

`parse_judge_response` receives either the awaited chain result (a JSON
dict or a raw string) or, from `node_judge`'s `except ValueError` handler,
the exception object itself.  The judge dicts of this codebase carry a
`Preference` field (an integer) and optionally `Reasoning` / `reasoning`
fields (strings); absent fields are `Option.none`. -/
inductive PyValue where
  /-- A dict; `preference = none` models a dict without a `"Preference"` key. -/
  | dict (preference : Option Int) (reasoningCap reasoningLow : Option String)
  /-- A Python `str`. -/
  | str (s : String)
  /-- A Python `int`. -/
  | int (n : Int)
  /-- A non-dict, non-string object (e.g. an exception); `msg` is its `str()`. -/
  | exn (msg : String)
  deriving DecidableEq

/-- Python f-string rendering of a `PyValue` (used only inside diagnostic
reasoning strings). -/
def pvRepr : PyValue → String
  | .dict (some p) _ _ => "\x7bPreference: " ++ toString p ++ "\x7d"
  | .dict none _ _ => "\x7b\x7d"
  | .str s => s
  | .int n => toString n
  | .exn m => m

/-- Python `a or b` on optional strings (`""` is falsy; the second operand
is returned as-is when the first is falsy). -/
def pyOrStr (a b : Option String) : Option String :=
  match a with
  | some s => if s = "" then b else some s
  | none => b

/-- Result dict of `parse_judge_response`:
`{"better_response": ..., "judge_reasoning": ...}`. -/
structure ParseResult where
  better_response : String
  judge_reasoning : Option String
  deriving DecidableEq

/-! ## `workflow_backup.parse_judge_response` -/

/-- First tier of the free-text branch: `"assistant a" in t and "winner:"
in t and "assistant a" in t[t.find("winner:"):]` (on lower-cased `t`). -/
def winnerPhrase (side t : String) : Bool :=
  containsSub side t && containsSub "winner:" t &&
    containsSub side (pySliceFrom t (pyFind "winner:" t))

/-- The free-text branch of `parse_judge_response`
(`workflow_backup.py` lines 73–105): lower-case the text, then try
`winner:` phrasing for each side, then tie keywords, then the
mention-count fallback; the reasoning is the input truncated to 500
characters. -/
def parseText (s : String) : ParseResult :=
  let t := pyLower s
  let better :=
    if winnerPhrase "assistant a" t then "A"
    else if winnerPhrase "assistant b" t then "B"
    else if containsSub "empate" t || containsSub "tie" t then "Empate"
    else if countOcc "assistant a" t > countOcc "assistant b" t then "A"
    else if countOcc "assistant b" t > countOcc "assistant a" t then "B"
    else "Empate"
  { better_response := better, judge_reasoning := some (truncate500 s) }

/-- The malformed-response branch of `parse_judge_response`
(`workflow_backup.py` lines 106–112). -/
def parseMalformed (v : PyValue) : ParseResult :=
  { better_response := "ERRO - Resposta malformada do judge"
    judge_reasoning :=
      some ("O judge retornou uma resposta inesperada: " ++ pvRepr v) }

/-- `workflow_backup.parse_judge_response` (lines 38–112).  A dict that is
truthy and has a `"Preference"` key takes the structured branch; a truthy
string takes the free-text branch; everything else (including the empty
string and the empty dict, both falsy in Python, and non-dict/non-string
objects) takes the malformed branch.  The `except ValueError` recovery
(lines 114–193) is unreachable: no statement of the `try` block raises
`ValueError`. -/
def parse_judge_response (v : PyValue) : ParseResult :=
  match v with
  | .dict (some p) rc rl =>
      { better_response := if p = 1 then "A" else if p = 2 then "B" else "Empate"
        judge_reasoning := pyOrStr rc rl }
  | .dict none _ _ => parseMalformed v
  | .str s => if s = "" then parseMalformed v else parseText s
  | .int _ => parseMalformed v
  | .exn _ => parseMalformed v

/-! ## `workflow.node_judge` (generation workflow, `workflow.py`) -/

/-- The comparison state reaching `node_judge` (`BestResponseState` fields
it reads). -/
structure WFState where
  model_llm_a : String
  model_llm_b : String
  response_a : String
  response_b : String
  input : String
  deriving DecidableEq

/-- `workflow.py` line 155/156:
`response and ("ERROR" in str(response) or "TIMEOUT" in str(response))` —
an answer is classified as failed when it is truthy (non-empty) and
contains one of the failure substrings. -/
def response_failed (r : String) : Bool :=
  (!(r = "")) && (containsSub "ERROR" r || containsSub "TIMEOUT" r)

/-- Outcome of attempting to create the judge model and invoke the judge
chain (the code after the walkover checks, `workflow.py` lines 182–235):
either the awaited chain value, or an exception caught by the matching
handler. -/
inductive JudgeCall where
  | returns (v : PyValue)
  | raisesValue (msg : String)
  | raisesOther (ty msg : String)
  deriving DecidableEq

/-- Result of `node_judge` together with whether the judge path was
entered (judge model created and chain invoked) — the failure branches
return before ever touching the judge. -/
structure NodeJudgeResult where
  better_llm : String
  invoked : Bool
  deriving DecidableEq

/-- Parsing of the judge chain value in `workflow.py` lines 195–217:
preference 1 names model A, 2 names model B, any other integer is
`"Empate"`; anything that is not a truthy dict with a `"Preference"` key
is malformed. -/
def wfJudgeVerdict (s : WFState) : PyValue → String
  | .dict (some p) _ _ =>
      if p = 1 then s.model_llm_a
      else if p = 2 then s.model_llm_b
      else "Empate"
  | _ => "JUDGE_ERROR - Resposta malformada do juiz"

/-- `workflow.node_judge` (lines 147–235): walkover evaluation followed,
only when both answers survive the failure test, by the judge invocation. -/
def node_judge (s : WFState) (call : JudgeCall) : NodeJudgeResult :=
  if response_failed s.response_a && response_failed s.response_b then
    { better_llm := "EMPATE_TÉCNICO - Ambos modelos falharam", invoked := false }
  else if response_failed s.response_a then
    { better_llm := s.model_llm_b ++ " (vitória por WO - A falhou)", invoked := false }
  else if response_failed s.response_b then
    { better_llm := s.model_llm_a ++ " (vitória por WO - B falhou)", invoked := false }
  else
    match call with
    | .returns v => { better_llm := wfJudgeVerdict s v, invoked := true }
    | .raisesValue m =>
        { better_llm := "JUDGE_MODEL_ERROR: " ++ m, invoked := true }
    | .raisesOther ty m =>
        { better_llm := "JUDGE_ERROR - Empate técnico (" ++ ty ++ ": " ++ m ++ ")"
          invoked := true }

/-! ## `LLMFactory.create_llm` and `_detect_provider_from_model_name` -/

/-- `llms._detect_provider_from_model_name` (lines 252–280): prefix-based
provider detection, defaulting to the OpenRouter gateway.  It is total —
every model id resolves to some provider. -/
def detect_provider_from_model_name (m : String) : String :=
  if pyStartsWith "claude-" m || pyStartsWith "anthropic/" m then "anthropic"
  else if pyStartsWith "google/" m || pyStartsWith "gemini" m then "google"
  else if pyStartsWith "openai/" m || pyStartsWith "gpt-" m then "openai"
  else if pyStartsWith "mistral" m then "mistral"
  else if pyStartsWith "x-ai/" m || pyStartsWith "grok" m then "xai"
  else if pyStartsWith "deepseek/" m then "deepseek"
  else if pyStartsWith "qwen/" m then "qwen"
  else if pyStartsWith "meta-llama/" m || pyStartsWith "llama" m then "meta"
  else "openrouter"

/-- `LLMFactory.create_llm` (lines 175–228), abstracted over the cached
model set: `cache` is `_cached_models.keys()` after `_ensure_config_loaded`
and `reloaded` is the cache after the reload attempt triggered by a miss.
`Except.error` is the `ValueError` of lines 209–214; `Except.ok` means the
registered factory function is executed. -/
def factory_create_llm (cache reloaded : List String) (model_name : String) :
    Except String Unit :=
  if cache.contains model_name then .ok ()
  else if reloaded.contains model_name then .ok ()
  else .error ("Modelo '" ++ model_name ++ "' não encontrado. Disponíveis: "
    ++ String.intercalate ", " reloaded)

/-- The three fallback models registered by `_load_fallback_models` when
the JSON configuration is unavailable or empty. -/
def fallbackModels : List String :=
  ["llama-4-maverick", "claude-4-sonnet", "google-gemini-2.5-pro"]

/-! ## Batch processing (`workflow_backup.batch_judge_processing` and
`compare.compare_models_batch`) -/

/-- `CompareRequest` (the fields read by the workflow and routers). -/
structure CompareRequest where
  input : String
  response_a : String
  response_b : String
  model_a_name : Option String
  model_b_name : Option String
  deriving DecidableEq

/-- Exceptions of the modelled fragment: `validationError model field` is
pydantic's `ValidationError` raised when a required field of model class
`model` is missing, a subclass of `ValueError` — so it is caught by
`except ValueError` clauses but not by `except asyncio.TimeoutError`. -/
inductive PyExn where
  | validationError (model field : String)
  deriving DecidableEq

/-- `type(e).__name__` for the modelled exceptions. -/
def pyExnType : PyExn → String
  | .validationError _ _ => "ValidationError"

/-- `str(e)` for the modelled exceptions (pydantic's missing-field
message, abridged). -/
def pyExnStr : PyExn → String
  | .validationError model field =>
      "1 validation error for " ++ model ++ ": " ++ field ++ " Field required"

/-- `BatchComparisonResult` (schemas/compare.py lines 61–71): the
validated fields; `judge_model_used` is declared `Field(...)` — required —
and `id` has a default factory. -/
structure BatchComparisonResult where
  input : String
  response_a : String
  response_b : String
  model_a_name : Option String
  model_b_name : Option String
  judge_model_used : String
  better_response : String
  judge_reasoning : Option String
  deriving DecidableEq

/-- A `BatchComparisonResult(...)` constructor call: pydantic validates
the supplied fields against the schema.  `judge` is the value supplied for
the required `judge_model_used` field; every construction site of this
codebase (workflow_backup.py lines 304/325/346, compare.py lines 133/169)
omits it, i.e. passes `none` here, so those calls raise
`ValidationError`. -/
def mkBatchResult (c : CompareRequest) (pr : ParseResult) (judge : Option String) :
    Except PyExn BatchComparisonResult :=
  match judge with
  | some j =>
      .ok { input := c.input, response_a := c.response_a, response_b := c.response_b
            model_a_name := c.model_a_name, model_b_name := c.model_b_name
            judge_model_used := j
            better_response := pr.better_response
            judge_reasoning := pr.judge_reasoning }
  | none => .error (.validationError "BatchComparisonResult" "judge_model_used")

/-- Outcome of the `chain.abatch` phase of `batch_judge_processing`: either
the list of per-item judge outputs (LangChain returns one per input, in
input order), or an exception reaching the critical handler (lines
338–356). -/
inductive BatchRun where
  | ok (outputs : List PyValue)
  | crash (ty msg : String)

/-- One iteration of the per-item loop of `batch_judge_processing` (lines
299–333): build the record for the parsed verdict (without
`judge_model_used`); on an exception, the per-item handler builds its own
error record — also without `judge_model_used`, so the construction raises
again and that exception escapes the loop. -/
def batchItemStep (c : CompareRequest) (pr : ParseResult) :
    Except PyExn BatchComparisonResult :=
  match mkBatchResult c pr none with
  | .ok r => .ok r
  | .error e =>
      mkBatchResult c
        { better_response := "ERRO - Falha no processamento individual"
          judge_reasoning := some ("Erro durante processamento da comparação: "
            ++ pyExnType e ++ " - " ++ pyExnStr e) }
        none

/-- The critical handler of `batch_judge_processing` (lines 338–356):
builds one uniform error record per comparison, again without
`judge_model_used`; the first construction raises and the exception
escapes the function. -/
def batchCriticalHandler (comparisons : List CompareRequest) (ty msg : String) :
    Except PyExn (List BatchComparisonResult) :=
  comparisons.mapM fun c =>
    mkBatchResult c
      { better_response := "ERRO - Falha crítica no batch"
        judge_reasoning := some ("Erro crítico durante processamento batch: "
          ++ ty ++ " - " ++ msg) }
      none

/-- `workflow_backup.batch_judge_processing` (lines 267–356): on a
successful `abatch`, each judge output is parsed with
`parse_judge_response` and paired with its comparison (the per-item loop
zips the two lists); an exception from the loop — or from `abatch`
itself — reaches the critical handler.  Since every record construction
omits the required `judge_model_used`, the function returns `.ok` only
when no record is ever built (an empty zip); otherwise the
`ValidationError` escapes. -/
def batch_judge_processing (comparisons : List CompareRequest) (run : BatchRun) :
    Except PyExn (List BatchComparisonResult) :=
  match run with
  | .ok outputs =>
      match (comparisons.zip outputs).mapM
          (fun cr => batchItemStep cr.1 (parse_judge_response cr.2)) with
      | .ok rs => .ok rs
      | .error e => batchCriticalHandler comparisons (pyExnType e) (pyExnStr e)
  | .crash ty msg => batchCriticalHandler comparisons ty msg

/-- The per-result counters of `compare_models_batch` (lines 75–95). -/
structure BatchStats where
  model_a_wins : Nat
  model_b_wins : Nat
  ties : Nat
  errors : Nat
  successful : Nat
  deriving DecidableEq

/-- One iteration of the statistics loop (lines 81–95): `ERRO`/`TIMEOUT`
prefixes count as errors; otherwise the result is provisionally counted
as successful and classified, with unrecognized verdicts reclassified as
errors. -/
def updateStats (st : BatchStats) (r : BatchComparisonResult) : BatchStats :=
  if pyStartsWith "ERRO" r.better_response
      || pyStartsWith "TIMEOUT" r.better_response then
    { st with errors := st.errors + 1 }
  else
    let st := { st with successful := st.successful + 1 }
    if r.better_response = "A" then
      { st with model_a_wins := st.model_a_wins + 1 }
    else if r.better_response = "B" then
      { st with model_b_wins := st.model_b_wins + 1 }
    else if r.better_response = "Empate" then
      { st with ties := st.ties + 1 }
    else
      { st with errors := st.errors + 1, successful := st.successful - 1 }

/-- The statistics accumulated over all batch results. -/
def computeStats (rs : List BatchComparisonResult) : BatchStats :=
  rs.foldl updateStats ⟨0, 0, 0, 0, 0⟩

/-- Best-model selection (lines 97–105). -/
def bestModel (a b : Nat) : String :=
  if b < a then "A"
  else if a < b then "B"
  else if a = b ∧ (0 < a ∨ 0 < b) then "Empate"
  else "N/A"

/-- `BatchComparisonResponse` (the fields the batch router fills; the
wall-clock `execution_time` float is outside the model). -/
structure BatchComparisonResponse where
  results : List BatchComparisonResult
  total_comparisons : Nat
  successful : Nat
  model_a_wins : Nat
  model_b_wins : Nat
  ties : Nat
  errors : Nat
  best_model : String
  deriving DecidableEq

/-- The aggregation step of the batch router's success path (lines
75–122): run the counting loop over the batch results, select the best
model, and assemble the `BatchComparisonResponse` (whose construction
supplies every required field). -/
def buildBatchResponse (total : Nat) (rs : List BatchComparisonResult) :
    BatchComparisonResponse :=
  let st := computeStats rs
  { results := rs
    total_comparisons := total
    successful := st.successful
    model_a_wins := st.model_a_wins
    model_b_wins := st.model_b_wins
    ties := st.ties
    errors := st.errors
    best_model := bestModel st.model_a_wins st.model_b_wins }

/-- What happens while the batch router body runs: the workflow call
completes its `abatch` phase (with its own internal outcome), or the 90 s
deadline fires, or a `ValueError` / other exception propagates out of the
awaited code. -/
inductive BatchEvent where
  | completes (run : BatchRun)
  | timeout
  | valueError (msg : String)
  | exception (ty msg : String)

/-- `compare.compare_models_batch` (lines 51–189), with the elapsed-time
text `elapsed` as an oracle.  `Except.error n` models an HTTP error
status `n`; `.ok` a 200 response.  A `ValidationError` escaping
`batch_judge_processing` inside the `try` is a `ValueError`, caught by
the `except ValueError` clause → `HTTPException(422)`.  In the
`except asyncio.TimeoutError` and `except Exception` handlers, the
handler's own record constructions omit `judge_model_used`; an exception
raised inside an `except` block is not caught by the later clauses of the
same `try`, so it escapes the endpoint and FastAPI answers 500. -/
def compare_models_batch (comparisons : List CompareRequest) (ev : BatchEvent)
    (elapsed : String) : Except Nat BatchComparisonResponse :=
  match ev with
  | .completes run =>
      match batch_judge_processing comparisons run with
      | .ok rs => .ok (buildBatchResponse comparisons.length rs)
      | .error _ => .error 422
  | .timeout =>
      match comparisons.mapM
          (fun c => mkBatchResult c
            { better_response := "TIMEOUT - Excedeu 90s"
              judge_reasoning := some
                ("O processamento batch foi interrompido por timeout após "
                  ++ elapsed ++ "s") }
            none) with
      | .ok rs =>
          .ok { results := rs
                total_comparisons := comparisons.length
                successful := 0
                model_a_wins := 0
                model_b_wins := 0
                ties := 0
                errors := comparisons.length
                best_model := "N/A" }
      | .error _ => .error 500
  | .valueError _ => .error 422
  | .exception ty msg =>
      match comparisons.mapM
          (fun c => mkBatchResult c
            { better_response := "ERRO - " ++ ty
              judge_reasoning := some
                ("Falha inesperada durante processamento batch: " ++ msg) }
            none) with
      | .ok rs =>
          .ok { results := rs
                total_comparisons := comparisons.length
                successful := 0
                model_a_wins := 0
                model_b_wins := 0
                ties := 0
                errors := comparisons.length
                best_model := "N/A" }
      | .error _ => .error 500

/-! ## Single comparison (`workflow_backup.main` and `compare.compare_models`) -/

/-- The result dict returned by `workflow_backup.main` on every path
(keys `input`, `response_a`, `response_b`, `model_a_name`, `model_b_name`,
`better_response`, `judge_reasoning`; the `execution_time` float is
outside the model).  Note the dict has no `judge_model_used` key. -/
structure MainResult where
  input : String
  response_a : String
  response_b : String
  model_a_name : Option String
  model_b_name : Option String
  better_response : String
  judge_reasoning : Option String
  deriving DecidableEq

/-- `ComparisonResponse` (schemas/compare.py lines 30–47): the validated
response model; `judge_model_used` is declared `Field(...)` — required
(`timestamp` has a default and the `execution_time` float is outside the
model). -/
structure ComparisonResponse where
  input : String
  response_a : String
  response_b : String
  model_a_name : Option String
  model_b_name : Option String
  judge_model_used : String
  better_response : String
  judge_reasoning : Option String
  deriving DecidableEq

/-- The `ComparisonResponse(**result)` constructor call at compare.py
line 37: pydantic validates the result dict against the schema.  `judge`
is the value the dict supplies for the required `judge_model_used` field;
`workflow_backup.main`'s result dict has no such key, so the router's
call passes `none` here and raises `ValidationError`. -/
def mkComparisonResponse (r : MainResult) (judge : Option String) :
    Except PyExn ComparisonResponse :=
  match judge with
  | some j =>
      .ok { input := r.input, response_a := r.response_a
            response_b := r.response_b
            model_a_name := r.model_a_name, model_b_name := r.model_b_name
            judge_model_used := j
            better_response := r.better_response
            judge_reasoning := r.judge_reasoning }
  | none => .error (.validationError "ComparisonResponse" "judge_model_used")

/-- What happens inside `workflow_backup.main`'s deadline: the judge node
runs (with the judge chain outcome `call`), or the 30 s timeout fires. -/
inductive MainEvent where
  | runs (call : JudgeCall)
  | timesOut

/-- `workflow_backup.node_judge` (lines 205–264): delegates the awaited
chain value — and, via the `except ValueError` handler, the exception
object itself — to `parse_judge_response`; other chain exceptions become
a judge-failure record. -/
def node_judge_backup (call : JudgeCall) : ParseResult :=
  match call with
  | .returns v => parse_judge_response v
  | .raisesValue m => parse_judge_response (.exn m)
  | .raisesOther ty m =>
      { better_response := "ERRO - Falha no modelo judge"
        judge_reasoning := some ("Erro durante execução do judge: "
          ++ ty ++ " - " ++ m) }

/-- `workflow_backup.main` (lines 358–475), with the elapsed-time text as
an oracle.  Validation failures raise `ValueError` inside the `try` and
are caught by `main`'s own handler (line 446) — they come back as an
`ERRO` result dict, not as an exception; likewise `asyncio.TimeoutError`
is caught at line 429 and becomes a `TIMEOUT` result dict. -/
def workflow_backup_main (q a b : String) (man mbn : Option String)
    (ev : MainEvent) (elapsed : String) : MainResult :=
  match ev with
  | .timesOut =>
      { input := q, response_a := a, response_b := b
        model_a_name := man, model_b_name := mbn
        better_response := "TIMEOUT - Excedeu 30s"
        judge_reasoning := some
          ("A comparação foi interrompida por timeout após " ++ elapsed ++ "s") }
  | .runs call =>
      let valError (msg : String) : MainResult :=
        { input := q, response_a := a, response_b := b
          model_a_name := man, model_b_name := mbn
          better_response := "ERRO - Validação falhou"
          judge_reasoning := some ("Erro de validação de entrada: " ++ msg) }
      if pyBlank a then valError "response_a não pode ser vazia"
      else if pyBlank b then valError "response_b não pode ser vazia"
      else if pyBlank q then valError "input_question não pode ser vazio"
      else
        let jr := node_judge_backup call
        { input := q, response_a := a, response_b := b
          model_a_name := man, model_b_name := mbn
          better_response := jr.better_response
          judge_reasoning := jr.judge_reasoning }

/-- `compare.compare_models` (router lines 14–49) together with the
FastAPI request validation of `CompareRequest` (schema lines 23–28): a
blank `input`, `response_a` or `response_b` is rejected with 422 before
the handler runs, and the validator hands the handler stripped values.
`workflow_backup.main` returns a result dict on success, validation
failure and timeout alike, so the router's 408 handler is unreachable;
but `ComparisonResponse(**result)` raises `ValidationError` (the dict
lacks the required `judge_model_used`), a `ValueError` caught by the
router's `except ValueError` → `HTTPException(422)`. -/
def compare_models (q a b : String) (man mbn : Option String)
    (ev : MainEvent) (elapsed : String) : Except Nat ComparisonResponse :=
  if pyBlank q || pyBlank a || pyBlank b then .error 422
  else
    match mkComparisonResponse
        (workflow_backup_main (pyStrip q) (pyStrip a) (pyStrip b)
          man mbn ev elapsed) none with
    | .ok resp => .ok resp
    | .error _ => .error 422

end Laaj

namespace Laaj

/-- A scratch example retained as a compilation sanity check. -/
example : containsSub "tie" "a tie here" = true := by decide

example :
    parse_judge_response (.dict (some 1) (some "x") none) =
      ⟨"A", some "x"⟩ := by decide

example : (parse_judge_response (.dict (some 2) none none)) = ⟨"B", none⟩ := by
  decide

example : (parse_judge_response (.int 12345)).better_response =
    "ERRO - Resposta malformada do judge" := by decide

example :
    (parse_judge_response (.str "Assistant A is better because...")).better_response
      = "A" := by decide

example : (parse_judge_response (.str "Empate total")).better_response
    = "Empate" := by decide

example :
    (parse_judge_response
      (.str "assistant a is better but it is close to a tie")).better_response
      = "Empate" := by decide

/-! ## Claim theorems -/

/-- C1.  Walkover evaluation in `workflow.node_judge`: when both answers
are failure sentinels the verdict is the technical tie
`"EMPATE_TÉCNICO - Ambos modelos falharam"` (distinct from the
judge-issued `"Empate"`); when exactly one answer is a failure sentinel
the other side's model wins by walkover and the judge path is never
entered; the judge path is entered exactly when neither answer is a
failure sentinel. -/
theorem node_judge_walkover (s : WFState) (call : JudgeCall) :
    (response_failed s.response_a = true → response_failed s.response_b = true →
      node_judge s call =
        ⟨"EMPATE_TÉCNICO - Ambos modelos falharam", false⟩) ∧
    (response_failed s.response_a = true → response_failed s.response_b = false →
      node_judge s call =
        ⟨s.model_llm_b ++ " (vitória por WO - A falhou)", false⟩) ∧
    (response_failed s.response_a = false → response_failed s.response_b = true →
      node_judge s call =
        ⟨s.model_llm_a ++ " (vitória por WO - B falhou)", false⟩) ∧
    (node_judge s call).invoked =
      (!response_failed s.response_a && !response_failed s.response_b) ∧
    ("EMPATE_TÉCNICO - Ambos modelos falharam" : String) ≠ "Empate" := by
  refine ⟨?_, ?_, ?_, ?_, by decide⟩ <;>
    (unfold node_judge
     cases ha : response_failed s.response_a <;>
       cases hb : response_failed s.response_b <;>
         cases call <;> simp [ha, hb])

/-- C1 witness: a concrete state in which answer A is the failure sentinel
`"LLM_A_ERROR: ..."` and answer B is an ordinary answer — model B wins by
walkover without the judge being invoked. -/
theorem node_judge_walkover_witness :
    node_judge ⟨"model-a", "model-b", "LLM_A_ERROR: boom", "an answer", "q"⟩
        (.returns (.int 0)) =
      ⟨"model-b (vitória por WO - A falhou)", false⟩ :=
  (node_judge_walkover _ _).2.1 (by decide) (by decide)

/-- C9.  `node_judge` classifies a side as failed exactly when its answer
contains `"ERROR"` or `"TIMEOUT"` as a substring (the truthiness guard is
redundant, since only non-empty strings can contain those substrings); a
pair where only side B's text contains such a substring makes model A win
by walkover without the judge being invoked, and both containing one is
a technical tie. -/
theorem node_judge_substring_detection (s : WFState) (call : JudgeCall)
    (r : String) :
    response_failed r = (containsSub "ERROR" r || containsSub "TIMEOUT" r) ∧
    (response_failed s.response_a = false → response_failed s.response_b = true →
      (node_judge s call).better_llm
          = s.model_llm_a ++ " (vitória por WO - B falhou)" ∧
        (node_judge s call).invoked = false) ∧
    (response_failed s.response_a = true → response_failed s.response_b = true →
      (node_judge s call).better_llm = "EMPATE_TÉCNICO - Ambos modelos falharam" ∧
        (node_judge s call).invoked = false) := by
  refine ⟨?_, ?_, ?_⟩
  · by_cases h : r = ""
    · subst h; decide
    · simp [response_failed, h]
  · intro ha hb
    unfold node_judge
    simp [ha, hb]
  · intro ha hb
    unfold node_judge
    simp [ha, hb]

/-- C9 witness: a legitimate pre-generated answer that merely mentions
`"ERROR"` in its content (`"The ERROR code 404 means not found."`) is
classified as failed, so the other side wins by walkover and the judge is
never invoked. -/
theorem node_judge_substring_detection_witness :
    response_failed "The ERROR code 404 means not found."
        = (containsSub "ERROR" "The ERROR code 404 means not found."
            || containsSub "TIMEOUT" "The ERROR code 404 means not found.") ∧
    (node_judge ⟨"model-a", "model-b", "Paris is the capital of France.",
          "The ERROR code 404 means not found.", "q"⟩
        (.returns (.dict (some 2) none none))).better_llm
      = "model-a (vitória por WO - B falhou)" := by
  refine ⟨(node_judge_substring_detection
    ⟨"model-a", "model-b", "Paris is the capital of France.",
      "The ERROR code 404 means not found.", "q"⟩
    (.returns (.dict (some 2) none none)) _).1, ?_⟩
  exact ((node_judge_substring_detection _ (.returns (.dict (some 2) none none))
    "x").2.1 (by decide) (by decide)).1

/-- C2.  Structured judge-output parsing: a dict with a `Preference` key
maps preference 1 to `"A"`, 2 to `"B"` and anything else to `"Empate"`,
taking the reasoning from the `Reasoning` field when present, else from
the `reasoning` field, else `none` (for non-empty field values); a value
that is neither a dict with `Preference` nor a string — an integer, an
exception object, or a dict lacking the key — yields a verdict starting
with `"ERRO"`. -/
theorem parse_judge_response_structured (p : Int) (rc rl : Option String)
    (hc : ∀ t, rc = some t → t ≠ "") :
    parse_judge_response (.dict (some p) rc rl) =
      { better_response := if p = 1 then "A" else if p = 2 then "B" else "Empate"
        judge_reasoning := if rc.isSome then rc else rl } ∧
    (∀ n : Int,
      pyStartsWith "ERRO" (parse_judge_response (.int n)).better_response = true) ∧
    (∀ m : String,
      pyStartsWith "ERRO" (parse_judge_response (.exn m)).better_response = true) ∧
    (∀ rc' rl' : Option String,
      pyStartsWith "ERRO"
        (parse_judge_response (.dict none rc' rl')).better_response = true) := by
  refine ⟨?_, fun _ => rfl, fun _ => rfl, fun _ _ => rfl⟩
  cases rc with
  | none => simp [parse_judge_response, pyOrStr]
  | some t => simp [parse_judge_response, pyOrStr, hc t rfl]

/-- C2 witness: the spec's round-trip cases —
`{"Preference": 1, "Reasoning": "x"}` parses to `("A", "x")` and the
integer `12345` parses to an `ERRO` verdict. -/
theorem parse_judge_response_structured_witness :
    parse_judge_response (.dict (some 1) (some "x") none) = ⟨"A", some "x"⟩ ∧
    pyStartsWith "ERRO" (parse_judge_response (.int 12345)).better_response
      = true := by
  have h := parse_judge_response_structured 1 (some "x") none
    (by intro t ht; injection ht with ht'; subst ht'; decide)
  exact ⟨h.1.trans (by decide), h.2.1 12345⟩

/-- C3 counterexample: the string
`"assistant a is better but it is close to a tie"` contains the phrase
`"assistant a is better"` together with the tie keyword `"tie"`, yet
`parse_judge_response` returns `"Empate"`, not `"A"` — for plain string
inputs there is no `"<side> is better"` tier between the `winner:` tier
and the tie-keyword tier. -/
theorem parse_text_tier_counterexample :
    containsSub "assistant a is better"
        (pyLower "assistant a is better but it is close to a tie") = true ∧
    containsSub "tie"
        (pyLower "assistant a is better but it is close to a tie") = true ∧
    (parse_judge_response
        (.str "assistant a is better but it is close to a tie")).better_response
      ≠ "A" ∧
    (parse_judge_response
        (.str "assistant a is better but it is close to a tie")).better_response
      = "Empate" := by decide

/-- C3 (amended).  For every non-empty string input the free-text branch
of `parse_judge_response` applies ordered pattern matching on the
lower-cased text in this priority: first explicit `winner: <side>`
phrasing (the side mentioned, with the side also appearing at or after
the `winner:` marker), side A before side B; then the tie keywords in two
languages (`empate`/`tie`); and finally the side-mention counting
fallback.  The `"<side> is better"` phrasing is not a tier for plain
string inputs (it exists only in the dead `except ValueError` recovery
path), so a text containing `"assistant a is better"` together with a tie
keyword but no `winner:` marker parses as `"Empate"`. -/
theorem parse_text_tier_order (s : String) (hs : s ≠ "") :
    (winnerPhrase "assistant a" (pyLower s) = true →
      (parse_judge_response (.str s)).better_response = "A") ∧
    (winnerPhrase "assistant a" (pyLower s) = false →
     winnerPhrase "assistant b" (pyLower s) = true →
      (parse_judge_response (.str s)).better_response = "B") ∧
    (winnerPhrase "assistant a" (pyLower s) = false →
     winnerPhrase "assistant b" (pyLower s) = false →
     (containsSub "empate" (pyLower s) || containsSub "tie" (pyLower s)) = true →
      (parse_judge_response (.str s)).better_response = "Empate") ∧
    (winnerPhrase "assistant a" (pyLower s) = false →
     winnerPhrase "assistant b" (pyLower s) = false →
     (containsSub "empate" (pyLower s) || containsSub "tie" (pyLower s)) = false →
      (parse_judge_response (.str s)).better_response =
        (if countOcc "assistant b" (pyLower s) < countOcc "assistant a" (pyLower s)
          then "A"
         else if countOcc "assistant a" (pyLower s)
            < countOcc "assistant b" (pyLower s) then "B"
         else "Empate")) := by
  have h : parse_judge_response (.str s) = parseText s := by
    simp [parse_judge_response, hs]
  refine ⟨?_, ?_, ?_, ?_⟩ <;> rw [h] <;> unfold parseText
  · intro h1; simp [h1]
  · intro h1 h2; simp [h1, h2]
  · intro h1 h2 h3; simp [h1, h2, h3]
  · intro h1 h2 h3; simp [h1, h2, h3, gt_iff_lt]

/-- C3 witness: `"Empate total"` matches no `winner:` tier and contains
the tie keyword, so the tie tier fires. -/
theorem parse_text_tier_order_witness :
    (parse_judge_response (.str "Empate total")).better_response = "Empate" :=
  (parse_text_tier_order "Empate total" (by decide)).2.2.1
    (by decide) (by decide) (by decide)

/-- C10 counterexample: the empty string is a string input, yet — being
falsy in Python — it takes the malformed branch and yields the `ERRO`
verdict rather than one of `"A"`, `"B"`, `"Empate"`. -/
theorem parse_text_total_counterexample :
    (parse_judge_response (.str "")).better_response ≠ "A" ∧
    (parse_judge_response (.str "")).better_response ≠ "B" ∧
    (parse_judge_response (.str "")).better_response ≠ "Empate" ∧
    (parse_judge_response (.str "")).better_response
      = "ERRO - Resposta malformada do judge" := by decide

/-- C10 (amended).  For every NON-EMPTY string input,
`parse_judge_response` returns a definitive verdict in
`{"A", "B", "Empate"}` with reasoning `some` of the text truncated to 500
characters: the mention-count fallback resolves equal counts to
`"Empate"`, so the error branch is unreachable for truthy strings.  (The
empty string, being falsy, takes the malformed branch instead.) -/
theorem parse_text_total (s : String) (hs : s ≠ "") :
    ((parse_judge_response (.str s)).better_response = "A" ∨
     (parse_judge_response (.str s)).better_response = "B" ∨
     (parse_judge_response (.str s)).better_response = "Empate") ∧
    (parse_judge_response (.str s)).judge_reasoning = some (truncate500 s) := by
  have h : parse_judge_response (.str s) = parseText s := by
    simp [parse_judge_response, hs]
  rw [h]; unfold parseText
  refine ⟨?_, rfl⟩
  dsimp only
  split
  · exact Or.inl rfl
  split
  · exact Or.inr (Or.inl rfl)
  split
  · exact Or.inr (Or.inr rfl)
  split
  · exact Or.inl rfl
  split
  · exact Or.inr (Or.inl rfl)
  · exact Or.inr (Or.inr rfl)

/-- C10 witness: a non-empty text mentioning neither side and no tie
keyword resolves through the counting fallback to `"Empate"`, with the
text itself as reasoning. -/
theorem parse_text_total_witness :
    ((parse_judge_response (.str "no verdict here")).better_response = "A" ∨
     (parse_judge_response (.str "no verdict here")).better_response = "B" ∨
     (parse_judge_response (.str "no verdict here")).better_response = "Empate") ∧
    (parse_judge_response (.str "no verdict here")).judge_reasoning
      = some (truncate500 "no verdict here") :=
  parse_text_total "no verdict here" (by decide)

/-- Each iteration of the batch statistics loop adds exactly one to
`successful + errors`. -/
theorem updateStats_sum (st : BatchStats) (r : BatchComparisonResult) :
    (updateStats st r).successful + (updateStats st r).errors
      = st.successful + st.errors + 1 := by
  unfold updateStats
  split_ifs <;> simp <;> omega

/-- Accumulating the statistics over a result list adds the list length
to `successful + errors`. -/
theorem foldl_updateStats_sum (rs : List BatchComparisonResult) (st : BatchStats) :
    (rs.foldl updateStats st).successful + (rs.foldl updateStats st).errors
      = st.successful + st.errors + rs.length := by
  induction rs generalizing st with
  | nil => simp
  | cons r rs ih =>
      rw [List.foldl_cons, ih (updateStats st r), updateStats_sum]
      simp [Nat.add_assoc, Nat.add_comm, Nat.add_left_comm]

/-- C4.  Batch count invariant: for every list of per-item batch results
with one record per input comparison, the aggregate
`BatchComparisonResponse` assembled by the batch endpoint's counting and
aggregation step satisfies `successful + errors = total_comparisons`,
with `total_comparisons` the number of input comparisons.  (In the staged
source this success path is reachable only for an empty record list,
since every record construction omits the required `judge_model_used` —
see C6; the aggregation step itself maintains the invariant for every
record list.) -/
theorem batch_counts_invariant (comparisons : List CompareRequest)
    (rs : List BatchComparisonResult) (hlen : rs.length = comparisons.length) :
    (buildBatchResponse comparisons.length rs).successful
        + (buildBatchResponse comparisons.length rs).errors
      = (buildBatchResponse comparisons.length rs).total_comparisons ∧
    (buildBatchResponse comparisons.length rs).total_comparisons
      = comparisons.length := by
  refine ⟨?_, rfl⟩
  show (computeStats rs).successful + (computeStats rs).errors
    = comparisons.length
  rw [← hlen]
  simpa [computeStats] using foldl_updateStats_sum rs ⟨0, 0, 0, 0, 0⟩

/-- C4 witness: a singleton batch aggregated over one `"A"`-verdict
record satisfies the count invariant. -/
theorem batch_counts_invariant_witness :
    (buildBatchResponse 1
          [⟨"q", "a1", "a2", none, none, "claude-4-sonnet", "A", none⟩]).successful
        + (buildBatchResponse 1
            [⟨"q", "a1", "a2", none, none, "claude-4-sonnet", "A", none⟩]).errors
      = (buildBatchResponse 1
          [⟨"q", "a1", "a2", none, none, "claude-4-sonnet", "A",
            none⟩]).total_comparisons ∧
    (buildBatchResponse 1
        [⟨"q", "a1", "a2", none, none, "claude-4-sonnet", "A",
          none⟩]).total_comparisons = 1 :=
  batch_counts_invariant [⟨"q", "a1", "a2", none, none⟩]
    [⟨"q", "a1", "a2", none, none, "claude-4-sonnet", "A", none⟩] rfl

/-- C5.  Best-side aggregation: strictly more A wins selects `"A"`,
strictly more B wins selects `"B"`, equal non-zero win counts select
`"Empate"`, and zero wins on both sides selects the no-data value
`"N/A"`; moreover the aggregation step maps three records whose verdicts
come from the real parser on preferences `[1, 1, 2]` (i.e. `[A, A, B]`)
to `successful = 3`, `errors = 0`, best model `"A"`, and three records
carrying the critical-batch-failure error verdict to `successful = 0`,
`errors = 3`, best model `"N/A"`. -/
theorem batch_best_model (a b : Nat) :
    (b < a → bestModel a b = "A") ∧
    (a < b → bestModel a b = "B") ∧
    (0 < a → bestModel a a = "Empate") ∧
    bestModel 0 0 = "N/A" ∧
    (∀ c1 c2 c3 : CompareRequest, ∀ j : String,
     ∀ r1 r2 r3 : BatchComparisonResult,
      mkBatchResult c1 (parse_judge_response (.dict (some 1) none none))
          (some j) = .ok r1 →
      mkBatchResult c2 (parse_judge_response (.dict (some 1) none none))
          (some j) = .ok r2 →
      mkBatchResult c3 (parse_judge_response (.dict (some 2) none none))
          (some j) = .ok r3 →
      (buildBatchResponse 3 [r1, r2, r3]).successful = 3 ∧
      (buildBatchResponse 3 [r1, r2, r3]).errors = 0 ∧
      (buildBatchResponse 3 [r1, r2, r3]).best_model = "A") ∧
    (∀ c1 c2 c3 : CompareRequest, ∀ j msg : String,
     ∀ r1 r2 r3 : BatchComparisonResult,
      mkBatchResult c1 ⟨"ERRO - Falha crítica no batch", some msg⟩ (some j)
          = .ok r1 →
      mkBatchResult c2 ⟨"ERRO - Falha crítica no batch", some msg⟩ (some j)
          = .ok r2 →
      mkBatchResult c3 ⟨"ERRO - Falha crítica no batch", some msg⟩ (some j)
          = .ok r3 →
      (buildBatchResponse 3 [r1, r2, r3]).successful = 0 ∧
      (buildBatchResponse 3 [r1, r2, r3]).errors = 3 ∧
      (buildBatchResponse 3 [r1, r2, r3]).best_model = "N/A") := by
  refine ⟨?_, ?_, ?_, by decide, ?_, ?_⟩
  · intro h; simp [bestModel, h]
  · intro h
    have h' : ¬ b < a := Nat.lt_asymm h
    simp [bestModel, h, h']
  · intro h; simp [bestModel, Nat.lt_irrefl, h]
  · intro c1 c2 c3 j r1 r2 r3 h1 h2 h3
    cases h1; cases h2; cases h3
    exact ⟨rfl, rfl, rfl⟩
  · intro c1 c2 c3 j msg r1 r2 r3 h1 h2 h3
    cases h1; cases h2; cases h3
    exact ⟨rfl, rfl, rfl⟩

/-- C5 witness: win counts 2 vs 1 select `"A"`, equal non-zero counts
select `"Empate"`, and the two concrete three-record aggregations behave
as the claim's examples state. -/
theorem batch_best_model_witness :
    bestModel 2 1 = "A" ∧ bestModel 1 1 = "Empate" ∧
    ((3 : Nat) = 3 ∧ (0 : Nat) = 0 ∧ ("A" : String) = "A") ∧
    ((0 : Nat) = 0 ∧ (3 : Nat) = 3 ∧ ("N/A" : String) = "N/A") := by
  have h := batch_best_model 2 1
  refine ⟨h.1 (by decide), (batch_best_model 1 1).2.2.1 (by decide), ?_, ?_⟩
  · exact h.2.2.2.2.1 ⟨"q1", "x1", "y1", none, none⟩
      ⟨"q2", "x2", "y2", none, none⟩ ⟨"q3", "x3", "y3", none, none⟩
      "claude-4-sonnet" _ _ _ rfl rfl rfl
  · exact h.2.2.2.2.2 ⟨"q1", "x1", "y1", none, none⟩
      ⟨"q2", "x2", "y2", none, none⟩ ⟨"q3", "x3", "y3", none, none⟩
      "claude-4-sonnet" "boom" _ _ _ rfl rfl rfl

/-- C6 (code bug).  The claim — and the code's own docstrings
("Erros individuais não afetam outras comparações do batch", the
"Retornar resultados de erro/timeout para todas as comparações"
handlers) — promise a 200 response with one record per input even under
total-batch failure or timeout.  The staged code cannot deliver it: every
`BatchComparisonResult(...)` call omits the required `judge_model_used`
field, so record construction raises `ValidationError`; the
completes/crash paths surface as HTTP 422 via `except ValueError`, and
the timeout handler's own construction raises out of the handler,
surfacing as HTTP 500.  Supplying the missing field would make the
construction succeed, isolating the slip. -/
theorem batch_loss_free_code_bug :
    compare_models_batch
        [⟨"q1", "x1", "y1", none, none⟩, ⟨"q2", "x2", "y2", none, none⟩]
        (.completes (.ok [.dict (some 1) none none, .dict (some 2) none none]))
        "5.00"
      = .error 422 ∧
    compare_models_batch
        [⟨"q1", "x1", "y1", none, none⟩, ⟨"q2", "x2", "y2", none, none⟩]
        (.completes (.crash "RuntimeError" "boom")) "5.00"
      = .error 422 ∧
    compare_models_batch
        [⟨"q1", "x1", "y1", none, none⟩, ⟨"q2", "x2", "y2", none, none⟩]
        BatchEvent.timeout "90.01"
      = .error 500 ∧
    mkBatchResult ⟨"q1", "x1", "y1", none, none⟩ ⟨"A", none⟩
        (some "claude-4-sonnet")
      = .ok ⟨"q1", "x1", "y1", none, none, "claude-4-sonnet", "A", none⟩ :=
  ⟨rfl, rfl, rfl, rfl⟩

/-- C7 counterexample: the id `"totally-unknown-model"` is resolvable by
the name-pattern heuristic (which is total: it defaults to the
`"openrouter"` gateway), yet `LLMFactory.create_llm` raises the
unsupported-model `ValueError` for it whenever it is absent from the
cached model set — the heuristic plays no role in the factory's
availability check. -/
theorem factory_heuristic_counterexample :
    detect_provider_from_model_name "totally-unknown-model" = "openrouter" ∧
    factory_create_llm fallbackModels fallbackModels "totally-unknown-model"
      = .error ("Modelo 'totally-unknown-model' não encontrado. Disponíveis: "
          ++ "llama-4-maverick, claude-4-sonnet, google-gemini-2.5-pro") := by
  constructor
  · decide
  · rfl

/-- C7 (amended).  `LLMFactory.create_llm` fails with the
unsupported-model `ValueError` exactly when the requested id is absent
from the factory's cached model set both before and after its reload
attempt; an id present in either cache snapshot yields a constructible
client.  The name-pattern heuristic is not consulted by this check: it is
total, mapping every id to one of the known providers (defaulting to the
gateway), and is used only when constructing clients for ids missing from
the JSON configuration. -/
theorem factory_create_llm_error_iff (cache reloaded : List String)
    (name : String) :
    (factory_create_llm cache reloaded name = .ok () ↔
      cache.contains name = true ∨ reloaded.contains name = true) ∧
    (∀ m : String, detect_provider_from_model_name m ∈
      (["anthropic", "google", "openai", "mistral", "xai", "deepseek",
        "qwen", "meta", "openrouter"] : List String)) := by
  constructor
  · unfold factory_create_llm
    split_ifs with h1 h2
    · simp at h1; simp [h1]
    · simp at h2; simp [h2]
    · simp at h1 h2; simp [h1, h2]
  · intro m
    unfold detect_provider_from_model_name
    split_ifs <;> simp

/-- C7 witness: an id in the cached set yields a client, and the
heuristic resolves an arbitrary id. -/
theorem factory_create_llm_error_iff_witness :
    factory_create_llm fallbackModels fallbackModels "claude-4-sonnet"
      = .ok () ∧
    detect_provider_from_model_name "claude-4-sonnet" ∈
      (["anthropic", "google", "openai", "mistral", "xai", "deepseek",
        "qwen", "meta", "openrouter"] : List String) :=
  ⟨((factory_create_llm_error_iff fallbackModels fallbackModels
      "claude-4-sonnet").1).mpr (Or.inl (by decide)),
   (factory_create_llm_error_iff fallbackModels fallbackModels
      "claude-4-sonnet").2 "claude-4-sonnet"⟩

/-- C8 counterexample: a comparison that hits the 30 s deadline produces
neither the claimed HTTP 408 nor a 200 — `workflow_backup.main` catches
`asyncio.TimeoutError` itself and returns a result dict (so the router's
408 branch is unreachable), and `ComparisonResponse(**result)` then
raises `ValidationError` for the missing required `judge_model_used`,
caught by `except ValueError` → 422.  A successful comparison hits the
same 422 instead of the claimed 200. -/
theorem compare_timeout_counterexample :
    compare_models "q" "a" "b" none none MainEvent.timesOut "1.00"
      = .error 422 ∧
    compare_models "q" "a" "b" none none MainEvent.timesOut "1.00"
      ≠ .error 408 ∧
    compare_models "q" "a" "b" none none
        (.runs (.returns (.dict (some 1) none none))) "0.10"
      = .error 422 := by
  refine ⟨rfl, ?_, rfl⟩
  intro h
  rw [show compare_models "q" "a" "b" none none MainEvent.timesOut "1.00"
      = (.error 422 : Except Nat ComparisonResponse) from rfl] at h
  simp at h

/-- C8 (amended).  `POST /compare` responds 422 on a blank required field
(FastAPI schema validation); and in the staged source every request that
passes schema validation also responds 422 — successful comparison and
timed-out comparison alike — because `workflow_backup.main`'s result dict
lacks the required `judge_model_used` field of `ComparisonResponse`, so
`ComparisonResponse(**result)` raises pydantic `ValidationError`, a
`ValueError` caught by the router's `except ValueError` handler.  408 is
never returned: `main` converts its `asyncio.TimeoutError` into a
`"TIMEOUT - Excedeu 30s"` result dict, leaving the router's 408 branch
unreachable; and had the dict supplied `judge_model_used`, the response
construction would succeed. -/
theorem compare_models_status (q a b : String) (man mbn : Option String)
    (ev : MainEvent) (elapsed j : String) :
    compare_models q a b man mbn ev elapsed = .error 422 ∧
    (workflow_backup_main q a b man mbn .timesOut elapsed).better_response
      = "TIMEOUT - Excedeu 30s" ∧
    (mkComparisonResponse (workflow_backup_main q a b man mbn ev elapsed)
        (some j)).isOk = true := by
  refine ⟨?_, rfl, rfl⟩
  unfold compare_models
  split_ifs with h
  · rfl
  · rfl

example : pyFind "winner:" "the winner: a" = 4 := by decide

example : countOcc "aa" "aaaa" = 2 := by decide

example : pyLower "Assistant A" = "assistant a" := by decide

example : pyStrip "  x " = "x" := by decide

end Laaj
